import Mathlib

/-!
Shallow embedding of the grading engine and leaderboard of the
coding-challenge backend (files grader.py and server.py), with theorems
settling the specification claims.

Conventions of the embedding:
  * Python strings are Lean `String`; `str.strip()` is modelled on the
    ASCII whitespace characters; `str.replace(" ", "")` removes every
    space character.
  * The subprocess runner is modelled by an oracle `Nat → RunOutcome`
    giving, for each test index, the observable outcome of running the
    submitted code on that test.
  * `uuid.uuid4()` and the clock are passed in as explicit parameters.
  * Python exceptions become `Except`: the grader raises
    `FileNotFoundError` for a missing problem (constructor
    `GradeError.problemNotFound`) and lets a temp-file materialization
    failure escape (constructor `GradeError.infraFailure`).
-/

namespace Replit

/-- ASCII whitespace, the characters Python str.strip removes at the ends. -/
def isPyWhitespace (c : Char) : Bool :=
  c == ' ' || c == '\t' || c == '\n' || c == '\r' || c == Char.ofNat 11 || c == Char.ofNat 12

/-- Model of Python str.strip(): drop whitespace from both ends. -/
def pyStrip (s : String) : String :=
  String.mk (((s.data.dropWhile isPyWhitespace).reverse.dropWhile isPyWhitespace).reverse)

/-- Model of Python str.replace(" ", ""): delete every space character. -/
def removeSpaces (s : String) : String :=
  String.mk (s.data.filter (fun c => c != ' '))

/-- The output comparison performed inline in grader.py lines 50-57:
strip both strings, delete the remaining spaces, compare for equality. -/
def output_matches (stdout expected : String) : Bool :=
  removeSpaces (pyStrip stdout) == removeSpaces (pyStrip expected)

/-- Modelled from the spec: trim leading/trailing whitespace from a
character list (one side): skip whitespace, keep the rest. -/
def dropWS : List Char → List Char
  | [] => []
  | c :: cs => if isPyWhitespace c then dropWS cs else c :: cs

/-- Modelled from the spec: trim leading and trailing whitespace. -/
def spec_trim (s : String) : String :=
  String.mk ((dropWS ((dropWS s.data).reverse)).reverse)

/-- Modelled from the spec: delete all space characters (not newlines). -/
def spec_delete_spaces : List Char → List Char
  | [] => []
  | c :: cs => if c == ' ' then spec_delete_spaces cs else c :: spec_delete_spaces cs

/-- Modelled from the spec: the comparator described in section 4.2 of the
spec: trim both sides, delete remaining spaces, then test equality. -/
def spec_compare (actual expected : String) : Bool :=
  spec_delete_spaces (spec_trim actual).data == spec_delete_spaces (spec_trim expected).data

theorem dropWS_eq_dropWhile (l : List Char) : dropWS l = l.dropWhile isPyWhitespace := by
  induction l with
  | nil => rfl
  | cons c cs ih =>
    by_cases h : isPyWhitespace c
    · simp [dropWS, List.dropWhile, h, ih]
    · simp [dropWS, List.dropWhile, h]

theorem spec_delete_spaces_eq_filter (l : List Char) :
    spec_delete_spaces l = l.filter (fun c => c != ' ') := by
  induction l with
  | nil => rfl
  | cons c cs ih =>
    by_cases h : c = ' '
    · simp [spec_delete_spaces, h, ih]
    · simp [spec_delete_spaces, h, ih]

theorem output_matches_eq_spec_compare (a e : String) :
    output_matches a e = spec_compare a e := by
  have hmk : ∀ x y : List Char, (String.mk x == String.mk y) = (x == y) := by
    intro x y
    by_cases h : x = y
    · subst h; simp
    · have : String.mk x ≠ String.mk y := by
        intro hc; exact h (congrArg String.data hc)
      simp [beq_iff_eq, h, this]
  simp only [output_matches, spec_compare, removeSpaces, pyStrip, spec_trim,
    dropWS_eq_dropWhile, spec_delete_spaces_eq_filter, hmk]

/-- A single quote character, used in the diagnostic message formats. -/
def sqc : Char := Char.ofNat 39

/-- Wrap a string in single quotes, as the Python f-strings do. -/
def sq (s : String) : String :=
  String.mk (sqc :: (s.data ++ [sqc]))

/-- One test case, as stored in a test_cases/{problem_id}.json file. -/
structure TestCase where
  input : String
  expected_output : String
deriving DecidableEq, Repr

/-- The parsed content of a problem file: test_data.get("public_tests", [])
and test_data.get("hidden_tests", []). -/
structure TestData where
  public_tests : List TestCase
  hidden_tests : List TestCase
deriving DecidableEq, Repr

/-- The problem store: the test_cases directory, a map from problem_id to
its test data, modelled as an association list. -/
def Store := List (String × TestData)

/-- Resolving test_cases/{problem_id}.json in the store. -/
def findProblem (store : Store) (problem_id : String) : Option TestData :=
  (List.find? (fun p => p.1 == problem_id) store).map Prod.snd

/-- The observable outcome of one attempt to run the submitted code on one
test case, abstracting grader.py lines 21-67:
  * `finished`: subprocess.run returned (exit code, stdout, stderr);
  * `timedOut`: subprocess.run raised TimeoutExpired;
  * `execError`: subprocess.run raised some other exception (for example
    the child process could not be spawned), caught by the inner handler;
  * `tempFail`: tempfile.NamedTemporaryFile itself raised, an exception no
    handler in grade_submission catches. -/
inductive RunOutcome where
  | finished (exitCode : Int) (stdout : String) (stderr : String)
  | timedOut
  | execError (msg : String)
  | tempFail (msg : String)
deriving DecidableEq, Repr

/-- Diagnostic of grader.py line 47. -/
def runtimeErrorMsg (i : Nat) (stderr : String) : String :=
  "Test " ++ toString (i + 1) ++ ": Runtime error - " ++ pyStrip stderr

/-- Diagnostic of grader.py line 63. -/
def timeoutMsg (i : Nat) : String :=
  "Test " ++ toString (i + 1) ++ ": Timeout (exceeded 5 seconds)"

/-- Diagnostic of grader.py line 66. -/
def execErrorMsg (i : Nat) (msg : String) : String :=
  "Test " ++ toString (i + 1) ++ ": Execution error - " ++ msg

/-- Diagnostic of grader.py line 60; its arguments are the already
stripped expected output and user output. -/
def mismatchMsg (i : Nat) (expected actual : String) : String :=
  "Test " ++ toString (i + 1) ++ ": Expected " ++ sq expected ++ ", got " ++ sq actual

/-- One iteration of the loop in grader.py lines 20-67 for test index i:
`Except.error m` models the uncaught temp-file exception escaping the
loop, `Except.ok none` a passed test, `Except.ok (some msg)` a failed
test with its diagnostic message. -/
def stepCase (i : Nat) (c : TestCase) (r : RunOutcome) : Except String (Option String) :=
  match r with
  | .tempFail m => .error m
  | .timedOut => .ok (some (timeoutMsg i))
  | .execError m => .ok (some (execErrorMsg i m))
  | .finished exitCode stdout stderr =>
    if exitCode != 0 then
      .ok (some (runtimeErrorMsg i stderr))
    else
      let user_output := pyStrip stdout
      let expected_output := pyStrip c.expected_output
      if removeSpaces user_output == removeSpaces expected_output then
        .ok none
      else
        .ok (some (mismatchMsg i expected_output user_output))

/-- The whole loop of grader.py lines 20-67 over the enumerated test
list, returning (passed_count, error_details) or propagating the
uncaught exception. -/
def gradeLoop (oracle : Nat → RunOutcome) : List (Nat × TestCase) → Except String (Nat × List String)
  | [] => .ok (0, [])
  | (i, c) :: rest =>
    match stepCase i c (oracle i) with
    | .error m => .error m
    | .ok none => (gradeLoop oracle rest).map (fun pe => (pe.1 + 1, pe.2))
    | .ok (some msg) => (gradeLoop oracle rest).map (fun pe => (pe.1, msg :: pe.2))

/-- The verdict computation of grader.py lines 77-79. -/
def replayResult (passed_count total_cases : Nat) : String :=
  if passed_count == total_cases then "passed"
  else if passed_count > 0 then "partially" else "failed"

/-- The submission_entry dict built in grader.py lines 81-89. -/
structure SubmissionEntry where
  submission_id : String
  user_id : String
  problem_id : String
  score : Nat
  replay_result : String
  timestamp : Nat
  error_details : List String
deriving DecidableEq, Repr

/-- The dict returned by grade_submission, grader.py lines 91-97. -/
structure GradeResult where
  score : Nat
  total : Nat
  replay_result : String
  submission_entry : SubmissionEntry
  error_details : List String
deriving DecidableEq, Repr

/-- The failures of grade_submission that escape it: the re-raised
FileNotFoundError for a missing problem file (grader.py lines 12-13) and
an uncaught exception from materializing the temporary file. -/
inductive GradeError where
  | problemNotFound (problem_id : String)
  | infraFailure (msg : String)
deriving DecidableEq, Repr

/-- The str(e) text of a GradeError, as the HTTP layer interpolates it. -/
def GradeError.message : GradeError → String
  | .problemNotFound problem_id => "Test cases for " ++ sq problem_id ++ " not found."
  | .infraFailure m => m

/-- grade_submission of grader.py: resolve the problem, run every test
through the loop, compute the verdict and package the result. The
subprocess behaviour is abstracted by `oracle`; `newUuid` stands for
str(uuid.uuid4()) and `now` for datetime.utcnow(). -/
def grade_submission (store : Store) (oracle : Nat → RunOutcome) (newUuid : String)
    (now : Nat) (code problem_id user_id : String) : Except GradeError GradeResult :=
  match findProblem store problem_id with
  | none => .error (.problemNotFound problem_id)
  | some test_data =>
    match gradeLoop oracle ((test_data.public_tests ++ test_data.hidden_tests).enum) with
    | .error m => .error (.infraFailure m)
    | .ok pe =>
      .ok {
        score := pe.1
        total := (test_data.public_tests ++ test_data.hidden_tests).length
        replay_result := replayResult pe.1 (test_data.public_tests ++ test_data.hidden_tests).length
        submission_entry := {
          submission_id := newUuid
          user_id := user_id
          problem_id := problem_id
          score := pe.1
          replay_result := replayResult pe.1 (test_data.public_tests ++ test_data.hidden_tests).length
          timestamp := now
          error_details := pe.2.take 3 }
        error_details := pe.2.take 5 }

/-- The request body of POST /submit (server.py class Submission). -/
structure Submission where
  user_id : String
  problem_id : String
  code : String
deriving DecidableEq, Repr

/-- One entry of the server-side `submissions` list (the leaderboard
store persisted to leaderboard.json), as built in server.py lines
252-260.  The ISO timestamp string is modelled as a Nat with the same
ordering. -/
structure LbEntry where
  submission_id : String
  user_id : String
  problem_id : String
  score : Nat
  replay_result : String
  timestamp : Nat
  error_details : List String
deriving DecidableEq, Repr

/-- The matching condition of server.py line 268: two entries concern
the same (user_id, problem_id) pair. -/
def samePair (a b : LbEntry) : Prop :=
  a.user_id = b.user_id ∧ a.problem_id = b.problem_id

instance : DecidableRel samePair := fun a b => by
  unfold samePair; exact inferInstance

/-- The leaderboard update of server.py lines 262-277: find the first
entry with the same user_id and problem_id; if found, replace it in
place only when the new score is strictly greater; otherwise append the
new entry at the end. -/
def record (entry : LbEntry) : List LbEntry → List LbEntry
  | [] => [entry]
  | e :: rest =>
    if samePair e entry then
      (if entry.score > e.score then entry else e) :: rest
    else
      e :: record entry rest

/-- An HTTPException raised by the server. -/
structure HttpError where
  status : Nat
  detail : String
deriving DecidableEq, Repr

/-- The "grade" object in the response of POST /submit
(server.py lines 287-292). -/
structure GradeView where
  score : Nat
  total : Nat
  replay_result : String
  error_details : List String
deriving DecidableEq, Repr

/-- The response of POST /submit (server.py lines 286-294). -/
structure SubmitResponse where
  grade : GradeView
  leaderboard_entry : LbEntry
deriving DecidableEq, Repr

/-- The /submit handler, server.py lines 233-294: check the problem file
exists (404 if not), grade (500 wrapping any grading exception), build
the leaderboard entry, update the submissions list, and answer.  Returns
the response together with the updated submissions list.  `serverNow`
stands for datetime.now().isoformat(). -/
def submit_code (store : Store) (oracle : Nat → RunOutcome) (newUuid : String)
    (gradeNow serverNow : Nat) (submissions : List LbEntry) (submission : Submission) :
    Except HttpError (SubmitResponse × List LbEntry) :=
  if (findProblem store submission.problem_id).isNone then
    .error { status := 404, detail := "Problem test cases not found" }
  else
    match grade_submission store oracle newUuid gradeNow
        submission.code submission.problem_id submission.user_id with
    | .error e => .error { status := 500, detail := "Grading failed: " ++ e.message }
    | .ok result =>
      let submission_entry : LbEntry := {
        submission_id := result.submission_entry.submission_id
        user_id := submission.user_id
        problem_id := submission.problem_id
        score := result.score
        replay_result := toString result.score ++ "/" ++ toString result.total ++ " tests passed"
        timestamp := serverNow
        error_details := result.error_details }
      let newSubmissions := record submission_entry submissions
      .ok ({
        grade := {
          score := result.score
          total := result.total
          replay_result := result.replay_result
          error_details := result.error_details.take 3 }
        leaderboard_entry := submission_entry }, newSubmissions)

/-- One surfaced leaderboard row (server.py lines 464-470); note it
carries no submission_id. -/
structure BoardEntry where
  user_id : String
  problem_id : String
  score : Nat
  replay_result : String
  timestamp : Nat
deriving DecidableEq, Repr

/-- The sort key ordering of server.py line 458: the Python tuple key
(-score, timestamp) compared lexicographically, as a relation. -/
def lbKeyLe (a b : LbEntry) : Prop :=
  b.score < a.score ∨ (a.score = b.score ∧ a.timestamp ≤ b.timestamp)

instance : DecidableRel lbKeyLe := fun a b => by
  unfold lbKeyLe; exact inferInstance

instance : IsTotal LbEntry lbKeyLe := by
  constructor
  intro a b
  rcases Nat.lt_trichotomy a.score b.score with h | h | h
  · exact Or.inr (Or.inl h)
  · rcases Nat.le_total a.timestamp b.timestamp with ht | ht
    · exact Or.inl (Or.inr ⟨h, ht⟩)
    · exact Or.inr (Or.inr ⟨h.symm, ht⟩)
  · exact Or.inl (Or.inl h)

instance : IsTrans LbEntry lbKeyLe := by
  constructor
  intro a b c hab hbc
  rcases hab with h1 | ⟨h1, t1⟩
  · rcases hbc with h2 | ⟨h2, _⟩
    · exact Or.inl (h2.trans h1)
    · exact Or.inl (h2 ▸ h1)
  · rcases hbc with h2 | ⟨h2, t2⟩
    · exact Or.inl (h1 ▸ h2)
    · exact Or.inr ⟨h1.trans h2, t1.trans t2⟩

/-- The same sort key on surfaced rows (server.py line 474). -/
def boardKeyLe (a b : BoardEntry) : Prop :=
  b.score < a.score ∨ (a.score = b.score ∧ a.timestamp ≤ b.timestamp)

instance : DecidableRel boardKeyLe := fun a b => by
  unfold boardKeyLe; exact inferInstance

instance : IsTotal BoardEntry boardKeyLe := by
  constructor
  intro a b
  rcases Nat.lt_trichotomy a.score b.score with h | h | h
  · exact Or.inr (Or.inl h)
  · rcases Nat.le_total a.timestamp b.timestamp with ht | ht
    · exact Or.inl (Or.inr ⟨h, ht⟩)
    · exact Or.inr (Or.inr ⟨h.symm, ht⟩)
  · exact Or.inl (Or.inl h)

instance : IsTrans BoardEntry boardKeyLe := by
  constructor
  intro a b c hab hbc
  rcases hab with h1 | ⟨h1, t1⟩
  · rcases hbc with h2 | ⟨h2, _⟩
    · exact Or.inl (h2.trans h1)
    · exact Or.inl (h2 ▸ h1)
  · rcases hbc with h2 | ⟨h2, t2⟩
    · exact Or.inl (h1 ▸ h2)
    · exact Or.inr ⟨h1.trans h2, t1.trans t2⟩

/-- Grouping of server.py lines 448-453: a Python dict keyed by
problem_id, keys in first-insertion order, each group keeping the
submissions order.  Helper: add one entry to the grouping. -/
def addToGroup (problem_id : String) (e : LbEntry) :
    List (String × List LbEntry) → List (String × List LbEntry)
  | [] => [(problem_id, [e])]
  | (k, es) :: rest =>
    if k = problem_id then (k, es ++ [e]) :: rest
    else (k, es) :: addToGroup problem_id e rest

/-- The full grouping loop of server.py lines 448-453. -/
def groupByProblem (submissions : List LbEntry) : List (String × List LbEntry) :=
  submissions.foldl (fun acc e => addToGroup e.problem_id e acc) []

/-- The per-problem reduction of server.py lines 460-471: walk the
sorted entries, keep the first entry seen for each user, and project it
to a surfaced row. -/
def bestPerUser (problem_id : String) (seen_users : List String) :
    List LbEntry → List BoardEntry
  | [] => []
  | e :: rest =>
    if e.user_id ∈ seen_users then bestPerUser problem_id seen_users rest
    else
      { user_id := e.user_id
        problem_id := problem_id
        score := e.score
        replay_result := e.replay_result
        timestamp := e.timestamp } :: bestPerUser problem_id (e.user_id :: seen_users) rest

/-- The /leaderboard handler, server.py lines 441-476.  Python sorted()
is a stable sort on the key (-score, timestamp); it is modelled by
insertion sort with the total preorder `lbKeyLe`, which computes the
same list as any stable sort for this key. -/
def get_leaderboard (submissions : List LbEntry) : List BoardEntry :=
  if submissions.isEmpty then []
  else
    let problems := groupByProblem submissions
    let leaderboard := problems.foldl
      (fun lb pr => lb ++ bestPerUser pr.1 [] (List.insertionSort lbKeyLe pr.2)) []
    List.insertionSort boardKeyLe leaderboard

deriving instance DecidableEq for Except


/-! ### Helper lemmas about the grading loop -/

/-- The diagnostic, if any, recorded for one enumerated test case. -/
def stepDiag (oracle : Nat → RunOutcome) (pc : Nat × TestCase) : Option String :=
  match stepCase pc.1 pc.2 (oracle pc.1) with
  | .ok (some m) => some m
  | _ => none

theorem gradeLoop_ok_sum (oracle : Nat → RunOutcome) :
    ∀ L pe, gradeLoop oracle L = .ok pe → pe.1 + pe.2.length = L.length := by
  intro L
  induction L with
  | nil =>
    intro pe h
    simp only [gradeLoop, Except.ok.injEq] at h
    rw [← h]
    rfl
  | cons ic rest ih =>
    obtain ⟨i, c⟩ := ic
    intro pe h
    simp only [gradeLoop] at h
    cases hs : stepCase i c (oracle i) with
    | error m => rw [hs] at h; simp at h
    | ok o =>
      rw [hs] at h
      cases o with
      | none =>
        cases hr : gradeLoop oracle rest with
        | error m => rw [hr] at h; simp [Except.map] at h
        | ok pe' =>
          rw [hr] at h
          simp only [Except.map, Except.ok.injEq] at h
          have := ih pe' hr
          rw [← h]
          simp only [List.length_cons]
          omega
      | some msg =>
        cases hr : gradeLoop oracle rest with
        | error m => rw [hr] at h; simp [Except.map] at h
        | ok pe' =>
          rw [hr] at h
          simp only [Except.map, Except.ok.injEq] at h
          have := ih pe' hr
          rw [← h]
          simp only [List.length_cons]
          omega

theorem gradeLoop_ok_diags (oracle : Nat → RunOutcome) :
    ∀ L pe, gradeLoop oracle L = .ok pe → pe.2 = L.filterMap (stepDiag oracle) := by
  intro L
  induction L with
  | nil =>
    intro pe h
    simp only [gradeLoop, Except.ok.injEq] at h
    rw [← h]
    rfl
  | cons ic rest ih =>
    obtain ⟨i, c⟩ := ic
    intro pe h
    simp only [gradeLoop] at h
    cases hs : stepCase i c (oracle i) with
    | error m => rw [hs] at h; simp at h
    | ok o =>
      rw [hs] at h
      cases o with
      | none =>
        cases hr : gradeLoop oracle rest with
        | error m => rw [hr] at h; simp [Except.map] at h
        | ok pe' =>
          rw [hr] at h
          simp only [Except.map, Except.ok.injEq] at h
          rw [← h]
          simp only [List.filterMap_cons, stepDiag, hs]
          exact ih pe' hr
      | some msg =>
        cases hr : gradeLoop oracle rest with
        | error m => rw [hr] at h; simp [Except.map] at h
        | ok pe' =>
          rw [hr] at h
          simp only [Except.map, Except.ok.injEq] at h
          rw [← h]
          simp only [List.filterMap_cons, stepDiag, hs]
          rw [ih pe' hr]

theorem stepCase_ok_of_ne_tempFail (i : Nat) (c : TestCase) (r : RunOutcome)
    (h : ∀ m, r ≠ RunOutcome.tempFail m) : ∃ o, stepCase i c r = .ok o := by
  cases r with
  | tempFail m => exact absurd rfl (h m)
  | timedOut => exact ⟨_, rfl⟩
  | execError m => exact ⟨_, rfl⟩
  | finished ec out err =>
    simp only [stepCase]
    split
    · exact ⟨_, rfl⟩
    · split
      · exact ⟨_, rfl⟩
      · exact ⟨_, rfl⟩

theorem gradeLoop_ok_of_no_tempFail (oracle : Nat → RunOutcome) :
    ∀ L : List (Nat × TestCase), (∀ pc ∈ L, ∀ m, oracle pc.1 ≠ RunOutcome.tempFail m) →
      ∃ pe, gradeLoop oracle L = .ok pe := by
  intro L
  induction L with
  | nil => intro _; exact ⟨(0, []), rfl⟩
  | cons ic rest ih =>
    obtain ⟨i, c⟩ := ic
    intro h
    obtain ⟨pe', hpe'⟩ := ih (fun pc hm => h pc (List.mem_cons_of_mem _ hm))
    obtain ⟨o, ho⟩ :=
      stepCase_ok_of_ne_tempFail i c (oracle i) (h (i, c) (List.mem_cons_self _ _))
    cases o with
    | none => exact ⟨(pe'.1 + 1, pe'.2), by simp [gradeLoop, ho, hpe', Except.map]⟩
    | some msg => exact ⟨(pe'.1, msg :: pe'.2), by simp [gradeLoop, ho, hpe', Except.map]⟩

theorem pairwise_fst_lt_enumFrom {α : Type} :
    ∀ (l : List α) (k : Nat),
      (List.enumFrom k l).Pairwise (fun a b => a.1 < b.1) := by
  intro l
  induction l with
  | nil => intro k; exact List.Pairwise.nil
  | cons x xs ih =>
    intro k
    refine List.Pairwise.cons ?_ (ih (k + 1))
    intro b hb
    obtain ⟨i, y⟩ := b
    have := (List.mk_mem_enumFrom_iff_le_and_getElem?_sub.mp hb).1
    show k < i
    omega

/-- Inversion of a successful grade_submission run. -/
theorem grade_submission_ok_inv (store : Store) (oracle : Nat → RunOutcome)
    (newUuid : String) (now : Nat) (code problem_id user_id : String) (r : GradeResult)
    (h : grade_submission store oracle newUuid now code problem_id user_id = .ok r) :
    ∃ td pe, findProblem store problem_id = some td ∧
      gradeLoop oracle ((td.public_tests ++ td.hidden_tests).enum) = .ok pe ∧
      r = { score := pe.1
            total := (td.public_tests ++ td.hidden_tests).length
            replay_result := replayResult pe.1 (td.public_tests ++ td.hidden_tests).length
            submission_entry := {
              submission_id := newUuid
              user_id := user_id
              problem_id := problem_id
              score := pe.1
              replay_result := replayResult pe.1 (td.public_tests ++ td.hidden_tests).length
              timestamp := now
              error_details := pe.2.take 3 }
            error_details := pe.2.take 5 } := by
  unfold grade_submission at h
  split at h
  · simp at h
  next td heq =>
    split at h
    · simp at h
    next pe heq2 =>
      simp only [Except.ok.injEq] at h
      exact ⟨td, pe, heq, heq2, h.symm⟩

/-! ### Helper lemmas about the leaderboard update -/

theorem samePair_trans {a b c : LbEntry} (h1 : samePair a b) (h2 : samePair b c) :
    samePair a c :=
  ⟨h1.1.trans h2.1, h1.2.trans h2.2⟩

/-- The invariant of claim C3: at most one retained entry per
(user_id, problem_id) pair. -/
def atMostOnePerPair (l : List LbEntry) : Prop :=
  l.Pairwise (fun a b => ¬ samePair a b)

instance : DecidablePred atMostOnePerPair := fun l => by
  unfold atMostOnePerPair; exact inferInstance

theorem record_mem (entry : LbEntry) :
    ∀ l b, b ∈ record entry l → b ∈ l ∨ b = entry := by
  intro l
  induction l with
  | nil =>
    intro b h
    simp only [record, List.mem_singleton] at h
    exact Or.inr h
  | cons e rest ih =>
    intro b h
    by_cases hsp : samePair e entry
    · simp only [record, if_pos hsp] at h
      by_cases hsc : entry.score > e.score
      · rw [if_pos hsc, List.mem_cons] at h
        rcases h with h | h
        · exact Or.inr h
        · exact Or.inl (List.mem_cons_of_mem _ h)
      · rw [if_neg hsc, List.mem_cons] at h
        rcases h with h | h
        · exact Or.inl (h ▸ List.mem_cons_self _ _)
        · exact Or.inl (List.mem_cons_of_mem _ h)
    · simp only [record, if_neg hsp] at h
      rw [List.mem_cons] at h
      rcases h with h | h
      · exact Or.inl (h ▸ List.mem_cons_self _ _)
      · rcases ih b h with h2 | h2
        · exact Or.inl (List.mem_cons_of_mem _ h2)
        · exact Or.inr h2

theorem record_atMostOne (entry : LbEntry) :
    ∀ l, atMostOnePerPair l → atMostOnePerPair (record entry l) := by
  intro l
  induction l with
  | nil => intro _; simp [record, atMostOnePerPair]
  | cons e rest ih =>
    intro hp
    rw [atMostOnePerPair, List.pairwise_cons] at hp
    obtain ⟨hhead, htail⟩ := hp
    by_cases hsp : samePair e entry
    · by_cases hsc : entry.score > e.score
      · simp only [record, if_pos hsp, if_pos hsc]
        rw [atMostOnePerPair, List.pairwise_cons]
        refine ⟨fun b hb hspb => hhead b hb (samePair_trans hsp hspb), htail⟩
      · simp only [record, if_pos hsp, if_neg hsc]
        rw [atMostOnePerPair, List.pairwise_cons]
        exact ⟨hhead, htail⟩
    · simp only [record, if_neg hsp]
      rw [atMostOnePerPair, List.pairwise_cons]
      constructor
      · intro b hb
        rcases record_mem entry rest b hb with h | h
        · exact hhead b h
        · exact h ▸ hsp
      · exact ih htail

theorem record_of_not_found (entry : LbEntry) :
    ∀ l, (∀ e ∈ l, ¬ samePair e entry) → record entry l = l ++ [entry] := by
  intro l
  induction l with
  | nil => intro _; rfl
  | cons e rest ih =>
    intro h
    have he : ¬ samePair e entry := h e (List.mem_cons_self _ _)
    simp only [record, if_neg he, List.cons_append]
    rw [ih (fun x hx => h x (List.mem_cons_of_mem e hx))]

theorem record_replace (entry e : LbEntry) (post : List LbEntry) :
    ∀ pre, (∀ x ∈ pre, ¬ samePair x entry) → samePair e entry → entry.score > e.score →
      record entry (pre ++ e :: post) = pre ++ entry :: post := by
  intro pre
  induction pre with
  | nil =>
    intro _ hsp hsc
    simp only [List.nil_append, record, if_pos hsp, if_pos hsc]
  | cons x pre' ih =>
    intro h hsp hsc
    have hx : ¬ samePair x entry := h x (List.mem_cons_self _ _)
    simp only [List.cons_append, record, if_neg hx, List.append_eq]
    rw [ih (fun y hy => h y (List.mem_cons_of_mem x hy)) hsp hsc]

theorem record_discard (entry e : LbEntry) (post : List LbEntry) :
    ∀ pre, (∀ x ∈ pre, ¬ samePair x entry) → samePair e entry → ¬ entry.score > e.score →
      record entry (pre ++ e :: post) = pre ++ e :: post := by
  intro pre
  induction pre with
  | nil =>
    intro _ hsp hsc
    simp only [List.nil_append, record, if_pos hsp, if_neg hsc]
  | cons x pre' ih =>
    intro h hsp hsc
    have hx : ¬ samePair x entry := h x (List.mem_cons_self _ _)
    simp only [List.cons_append, record, if_neg hx, List.append_eq]
    rw [ih (fun y hy => h y (List.mem_cons_of_mem x hy)) hsp hsc]

/-- The surfaced leaderboard is always sorted by score descending, then
timestamp ascending. -/
theorem get_leaderboard_sorted (subs : List LbEntry) :
    (get_leaderboard subs).Sorted boardKeyLe := by
  unfold get_leaderboard
  by_cases h : subs.isEmpty
  · simp [h]
  · simp only [h, Bool.false_eq_true, if_false]
    exact List.sorted_insertionSort boardKeyLe _

/-! ### Witness fixtures -/

/-- A one-test problem used by witnesses. -/
def wTd1 : TestData :=
  { public_tests := [{ input := "", expected_output := "x" }], hidden_tests := [] }

/-- A one-problem store used by witnesses. -/
def wStore : Store := [("p", wTd1)]

/-- An oracle whose every run times out. -/
def wOracleTimeout : Nat → RunOutcome := fun _ => .timedOut

/-- The grade result of running `wStore`'s problem "p" under
`wOracleTimeout`. -/
def wRes1 : GradeResult :=
  { score := 0
    total := 1
    replay_result := "failed"
    submission_entry := {
      submission_id := "w"
      user_id := "u"
      problem_id := "p"
      score := 0
      replay_result := "failed"
      timestamp := 0
      error_details := ["Test 1: Timeout (exceeded 5 seconds)"] }
    error_details := ["Test 1: Timeout (exceeded 5 seconds)"] }

/-! ### Claim theorems -/

/-- C1 counterexample: on a problem with zero test cases (an empty
public and hidden test list), grade_submission returns passed_count 0,
total_count 0 and verdict "passed", not "failed"; so the biconditional
"verdict is FAILED iff passed_count == 0" of the claim fails at
passed_count = total_count = 0 (the final Bool records that the verdict
is not "failed" although passed_count is 0). -/
theorem claim_C1_counterexample :
    (grade_submission [("p", { public_tests := [], hidden_tests := [] })]
        (fun _ => RunOutcome.timedOut) "s0" 0 "c" "p" "u").map
      (fun r => (r.score, r.total, r.replay_result, r.replay_result == "failed")) =
      Except.ok (0, 0, "passed", false) := by decide

/-- C1 amended: the verdict computed by grade_submission is "passed" iff
passed_count = total_count (this includes total_count = 0), "failed" iff
passed_count = 0 and total_count > 0, and "partially" iff
0 < passed_count < total_count; and every successful grade_submission
result carries verdict replayResult score total with score ≤ total. -/
theorem claim_C1_verdict_amended :
    (∀ p t : Nat, p ≤ t →
      ((replayResult p t = "passed" ↔ p = t) ∧
       (replayResult p t = "failed" ↔ (p = 0 ∧ 0 < t)) ∧
       (replayResult p t = "partially" ↔ (0 < p ∧ p < t)))) ∧
    (∀ store oracle newUuid now code problem_id user_id r,
      grade_submission store oracle newUuid now code problem_id user_id = .ok r →
      r.replay_result = replayResult r.score r.total ∧ r.score ≤ r.total) := by
  constructor
  · intro p t hpt
    by_cases h1 : p = t
    · subst h1
      simp [replayResult]
    · have hlt : p < t := lt_of_le_of_ne hpt h1
      by_cases h2 : p > 0
      · simp [replayResult, h1, h2]
        omega
      · simp [replayResult, h1, h2]
        omega
  · intro store oracle newUuid now code problem_id user_id r h
    obtain ⟨td, pe, hf, hg, hr⟩ :=
      grade_submission_ok_inv store oracle newUuid now code problem_id user_id r h
    have hsum := gradeLoop_ok_sum oracle _ pe hg
    rw [List.enum_length, List.length_append] at hsum
    subst hr
    exact ⟨rfl, by simp; omega⟩

/-- Witness for the amended C1: at passed 1 of total 2 the hypotheses
hold and the verdict is "partially", not "passed". -/
theorem claim_C1_verdict_amended_witness :
    replayResult 1 2 = "partially" ↔ (0 < (1 : Nat) ∧ 1 < 2) :=
  (claim_C1_verdict_amended.1 1 2 (by decide)).2.2

/-- C2: the output comparison of the grader equals the spec-described
comparator (trim leading/trailing whitespace, then delete the remaining
space characters, then test equality); the four concrete examples hold,
and an empty expected output matches exactly the actual outputs that
normalize to empty.  Both sides are Lean functions of the two strings,
so the comparison is pure and deterministic. -/
theorem claim_C2_comparator :
    (∀ a e, output_matches a e = spec_compare a e) ∧
    output_matches "1 2 3" "1  2   3" = true ∧
    output_matches "abc" "abd" = false ∧
    output_matches "" "" = true ∧
    output_matches " x " "x" = true ∧
    (∀ a, output_matches a "" = true ↔ removeSpaces (pyStrip a) = "") := by
  have h0 : removeSpaces (pyStrip "") = "" := by decide
  refine ⟨output_matches_eq_spec_compare, by decide, by decide, by decide, by decide, ?_⟩
  intro a
  simp [output_matches, h0]

/-- C9: for every problem present in the store, a successful grade has
total_count = |public tests| + |hidden tests| and passed_count between 0
and total_count. -/
theorem claim_C9_total_count (store : Store) (oracle : Nat → RunOutcome)
    (newUuid : String) (now : Nat) (code problem_id user_id : String)
    (td : TestData) (r : GradeResult)
    (hf : findProblem store problem_id = some td)
    (h : grade_submission store oracle newUuid now code problem_id user_id = .ok r) :
    r.total = td.public_tests.length + td.hidden_tests.length ∧ r.score ≤ r.total := by
  obtain ⟨td2, pe, hf2, hg, hr⟩ :=
    grade_submission_ok_inv store oracle newUuid now code problem_id user_id r h
  rw [hf] at hf2
  injection hf2 with htd
  subst htd
  have hsum := gradeLoop_ok_sum oracle _ pe hg
  rw [List.enum_length, List.length_append] at hsum
  subst hr
  constructor
  · simp
  · simp
    omega

/-- Witness for C9 at the concrete one-test timeout run. -/
theorem claim_C9_witness :
    wRes1.total = wTd1.public_tests.length + wTd1.hidden_tests.length ∧
      wRes1.score ≤ wRes1.total :=
  claim_C9_total_count wStore wOracleTimeout "w" 0 "c" "p" "u" wTd1 wRes1
    (by decide) (by decide)

/-- C10: each test case contributes exactly one of the two: it either
increments passed_count or appends exactly one diagnostic, so
passed_count plus the length of the pre-truncation diagnostics list
equals total_count; the diagnostics are exactly the filterMap of the
per-test diagnostic over the enumerated test list, and the indices of
the diagnostic-producing tests are strictly increasing in test order. -/
theorem claim_C10_conservation (store : Store) (oracle : Nat → RunOutcome)
    (newUuid : String) (now : Nat) (code problem_id user_id : String)
    (td : TestData) (r : GradeResult)
    (hf : findProblem store problem_id = some td)
    (h : grade_submission store oracle newUuid now code problem_id user_id = .ok r) :
    ∃ errs, gradeLoop oracle ((td.public_tests ++ td.hidden_tests).enum) = .ok (r.score, errs) ∧
      r.score + errs.length = r.total ∧
      errs = ((td.public_tests ++ td.hidden_tests).enum).filterMap (stepDiag oracle) ∧
      (((((td.public_tests ++ td.hidden_tests).enum).filter
          (fun pc => (stepDiag oracle pc).isSome)).map Prod.fst).Sorted (· < ·)) := by
  obtain ⟨td2, pe, hf2, hg, hr⟩ :=
    grade_submission_ok_inv store oracle newUuid now code problem_id user_id r h
  rw [hf] at hf2
  injection hf2 with htd
  subst htd
  have hsum := gradeLoop_ok_sum oracle _ pe hg
  rw [List.enum_length, List.length_append] at hsum
  refine ⟨pe.2, ?_, ?_, ?_, ?_⟩
  · have : r.score = pe.1 := by rw [hr]
    rw [this]
    simpa using hg
  · rw [hr]
    simp
    omega
  · exact gradeLoop_ok_diags oracle _ pe hg
  · have hpw := pairwise_fst_lt_enumFrom (td.public_tests ++ td.hidden_tests) 0
    have h2 := hpw.filter (fun pc => (stepDiag oracle pc).isSome)
    exact List.pairwise_map.mpr h2

/-- Witness for C10 at the concrete one-test timeout run. -/
theorem claim_C10_witness :
    ∃ errs, gradeLoop wOracleTimeout ((wTd1.public_tests ++ wTd1.hidden_tests).enum) =
        .ok (wRes1.score, errs) ∧
      wRes1.score + errs.length = wRes1.total ∧
      errs = ((wTd1.public_tests ++ wTd1.hidden_tests).enum).filterMap (stepDiag wOracleTimeout) ∧
      (((((wTd1.public_tests ++ wTd1.hidden_tests).enum).filter
          (fun pc => (stepDiag wOracleTimeout pc).isSome)).map Prod.fst).Sorted (· < ·)) :=
  claim_C10_conservation wStore wOracleTimeout "w" 0 "c" "p" "u" wTd1 wRes1
    (by decide) (by decide)

/-- Scenario fixture: first submission, score 3. -/
def scenE1 : LbEntry :=
  { submission_id := "s1", user_id := "u", problem_id := "p", score := 3,
    replay_result := "3/5 tests passed", timestamp := 1, error_details := [] }

/-- Scenario fixture: second submission, score 5. -/
def scenE2 : LbEntry :=
  { submission_id := "s2", user_id := "u", problem_id := "p", score := 5,
    replay_result := "5/5 tests passed", timestamp := 2, error_details := [] }

/-- Scenario fixture: third submission, score 2. -/
def scenE3 : LbEntry :=
  { submission_id := "s3", user_id := "u", problem_id := "p", score := 2,
    replay_result := "2/5 tests passed", timestamp := 3, error_details := [] }

/-- C3: the leaderboard record operation preserves the at-most-one-entry
invariant per (user_id, problem_id) pair and follows the rule: insert
when no entry for the pair exists; replace in place (carrying the new
submission's own timestamp, because the whole new entry is written) when
the new score is strictly greater; discard otherwise, leaving the list
unchanged.  After recording scores [3, 5, 2] in sequence the retained
entry is the second submission: score 5 with timestamp 2. -/
theorem claim_C3_record :
    (∀ entry l, atMostOnePerPair l → atMostOnePerPair (record entry l)) ∧
    (∀ entry l, (∀ e ∈ l, ¬ samePair e entry) → record entry l = l ++ [entry]) ∧
    (∀ entry e post pre, (∀ x ∈ pre, ¬ samePair x entry) → samePair e entry →
      entry.score > e.score → record entry (pre ++ e :: post) = pre ++ entry :: post) ∧
    (∀ entry e post pre, (∀ x ∈ pre, ¬ samePair x entry) → samePair e entry →
      ¬ entry.score > e.score → record entry (pre ++ e :: post) = pre ++ e :: post) ∧
    (record scenE3 (record scenE2 (record scenE1 [])) = [scenE2] ∧
      scenE2.score = 5 ∧ scenE2.timestamp = 2) :=
  ⟨record_atMostOne, record_of_not_found, record_replace, record_discard, by decide⟩

/-- Witness for C3: the invariant and insert rule at concrete inputs. -/
theorem claim_C3_record_witness :
    atMostOnePerPair (record scenE1 []) ∧ record scenE1 [] = [] ++ [scenE1] :=
  ⟨claim_C3_record.1 scenE1 [] (by decide),
   claim_C3_record.2.1 scenE1 [] (by simp)⟩

/-- Leaderboard example fixture: u1, score 5, t = 10. -/
def ex1 : LbEntry :=
  { submission_id := "e1", user_id := "u1", problem_id := "p1", score := 5,
    replay_result := "5/5 tests passed", timestamp := 10, error_details := [] }

/-- Leaderboard example fixture: u2, score 5, t = 5. -/
def ex2 : LbEntry :=
  { submission_id := "e2", user_id := "u2", problem_id := "p1", score := 5,
    replay_result := "5/5 tests passed", timestamp := 5, error_details := [] }

/-- Leaderboard example fixture: u3, score 3, t = 1. -/
def ex3 : LbEntry :=
  { submission_id := "e3", user_id := "u3", problem_id := "p1", score := 3,
    replay_result := "3/5 tests passed", timestamp := 1, error_details := [] }

/-- Counterexample fixture: user x, submission_id "b". -/
def cexA : LbEntry :=
  { submission_id := "b", user_id := "x", problem_id := "p", score := 1,
    replay_result := "1/1 tests passed", timestamp := 0, error_details := [] }

/-- Counterexample fixture: user y, submission_id "a". -/
def cexB : LbEntry :=
  { submission_id := "a", user_id := "y", problem_id := "p", score := 1,
    replay_result := "1/1 tests passed", timestamp := 0, error_details := [] }

/-- C4 counterexample: cexA and cexB have equal score and equal
timestamp and distinct submission_ids, yet querying the leaderboard
over [cexA, cexB] and over [cexB, cexA] — the same two entries, only the
insertion order differs — returns opposite user orders.  Hence for
entries with equal score and timestamp the output order depends on the
insertion order of the submissions list and cannot be any submission_id
tie-break (which would give the same order for both inputs); the
surfaced rows do not even carry a submission_id.  This falsifies the
claimed submission_id final tie-break and the claimed reproducibility on
equal keys. -/
theorem claim_C4_counterexample :
    (get_leaderboard [cexA, cexB]).map (fun b => b.user_id) = ["x", "y"] ∧
    (get_leaderboard [cexB, cexA]).map (fun b => b.user_id) = ["y", "x"] ∧
    cexA.score = cexB.score ∧ cexA.timestamp = cexB.timestamp ∧
    cexA.submission_id ≠ cexB.submission_id := by decide

/-- Cross-problem tie fixture: u1, problem q, score 1, t = 0. -/
def gA : LbEntry :=
  { submission_id := "g1", user_id := "u1", problem_id := "q", score := 1,
    replay_result := "1/5 tests passed", timestamp := 0, error_details := [] }

/-- Cross-problem tie fixture: u2, problem p, score 5, t = 0. -/
def gB : LbEntry :=
  { submission_id := "g2", user_id := "u2", problem_id := "p", score := 5,
    replay_result := "5/5 tests passed", timestamp := 0, error_details := [] }

/-- Cross-problem tie fixture: u3, problem q, score 5, t = 0. -/
def gC : LbEntry :=
  { submission_id := "g3", user_id := "u3", problem_id := "q", score := 5,
    replay_result := "5/5 tests passed", timestamp := 0, error_details := [] }

/-- C4 amended: the leaderboard query returns rows sorted by score
descending, then timestamp ascending (earlier submissions rank higher on
score ties wherever the sort key distinguishes rows); no submission_id
tie-break exists, and the order of rows with fully equal
(score, timestamp) keys is not a function of the entry set: it depends
on the insertion order of the submissions list and on the per-problem
grouping that precedes the final sort.  Concretely the u1/u2/u3 example
returns [u2, u1, u3], and the cross-problem example
[(u1,q,1,t0), (u2,p,5,t0), (u3,q,5,t0)] returns [u3, u2, u1]: the
grouping emits problem q's rows first, so u3 precedes u2 although u2's
entry was inserted earlier and both keys are equal. -/
theorem claim_C4_order_amended :
    (∀ subs, (get_leaderboard subs).Sorted boardKeyLe) ∧
    (get_leaderboard [ex1, ex2, ex3]).map (fun b => b.user_id) = ["u2", "u1", "u3"] ∧
    (get_leaderboard [gA, gB, gC]).map (fun b => b.user_id) = ["u3", "u2", "u1"] ∧
    gB.score = gC.score ∧ gB.timestamp = gC.timestamp :=
  ⟨get_leaderboard_sorted, by decide, by decide, rfl, rfl⟩

/-- C5: a missing problem_id makes grade_submission fail with the
problemNotFound error, which is a constructor distinct from the
infraFailure grading-failure; the HTTP layer answers it with a 404
not-found value rather than crashing (submit_code is total and returns
an error value); and for any present problem_id grade_submission never
returns problemNotFound. -/
theorem claim_C5_problem_not_found :
    (∀ store oracle newUuid now code problem_id user_id,
      findProblem store problem_id = none →
      grade_submission store oracle newUuid now code problem_id user_id =
        .error (.problemNotFound problem_id)) ∧
    (∀ store oracle newUuid gradeNow serverNow submissions submission,
      findProblem store submission.problem_id = none →
      submit_code store oracle newUuid gradeNow serverNow submissions submission =
        .error { status := 404, detail := "Problem test cases not found" }) ∧
    (∀ p m, GradeError.problemNotFound p ≠ GradeError.infraFailure m) ∧
    (∀ store oracle newUuid now code problem_id user_id td,
      findProblem store problem_id = some td →
      grade_submission store oracle newUuid now code problem_id user_id ≠
        .error (.problemNotFound problem_id)) := by
  refine ⟨?_, ?_, ?_, ?_⟩
  · intro store oracle newUuid now code problem_id user_id h
    simp [grade_submission, h]
  · intro store oracle newUuid gradeNow serverNow submissions submission h
    simp [submit_code, h]
  · intro p m hc
    simp at hc
  · intro store oracle newUuid now code problem_id user_id td h hc
    cases hg : gradeLoop oracle ((td.public_tests ++ td.hidden_tests).enum) with
    | error m => simp [grade_submission, h, hg] at hc
    | ok pe => simp [grade_submission, h, hg] at hc

/-- Witness for C5 at the empty store and the problem_id "missing". -/
theorem claim_C5_witness :
    grade_submission [] wOracleTimeout "w" 0 "c" "missing" "u" =
      .error (.problemNotFound "missing") ∧
    submit_code [] wOracleTimeout "w" 0 0 [] ⟨"u", "missing", "c"⟩ =
      .error { status := 404, detail := "Problem test cases not found" } :=
  ⟨claim_C5_problem_not_found.1 [] wOracleTimeout "w" 0 "c" "missing" "u" rfl,
   claim_C5_problem_not_found.2.1 [] wOracleTimeout "w" 0 0 [] ⟨"u", "missing", "c"⟩ rfl⟩

/-- A four-test problem, all of whose runs time out under
`wOracleTimeout`. -/
def wTd4 : TestData :=
  { public_tests := [{ input := "", expected_output := "x" },
                     { input := "", expected_output := "x" },
                     { input := "", expected_output := "x" },
                     { input := "", expected_output := "x" }],
    hidden_tests := [] }

/-- A store holding the four-test problem under id "q". -/
def wStore4 : Store := [("q", wTd4)]

/-- The four timeout diagnostics of running "q" under `wOracleTimeout`. -/
def wDiags4 : List String :=
  ["Test 1: Timeout (exceeded 5 seconds)",
   "Test 2: Timeout (exceeded 5 seconds)",
   "Test 3: Timeout (exceeded 5 seconds)",
   "Test 4: Timeout (exceeded 5 seconds)"]

/-- C6 counterexample: submitting against a four-test problem where all
four tests fail, the record stored in the submissions list (the
leaderboard_entry, persisted to leaderboard.json) carries 4 diagnostics
— more than the claimed bound of 3 — while the externally surfaced grade
view carries 3. -/
theorem claim_C6_counterexample :
    (submit_code wStore4 wOracleTimeout "s1" 0 0 [] ⟨"u", "q", "c"⟩).map
      (fun pr => (pr.1.leaderboard_entry.error_details.length,
                  pr.1.grade.error_details.length)) = Except.ok (4, 3) ∧
    ¬ (4 ≤ 3) := by decide

/-- C6 amended: diagnostics retention is first-N in test order with no
sampling: the grader returns the first 5 of the full diagnostics list as
error_details and the first 3 inside its own submission_entry; the
/submit response's grade view surfaces the first 3; but the record
stored in the submissions list carries the grader's first-5 list (up to
5 entries, not up to 3). -/
theorem claim_C6_diagnostics_amended (store : Store) (oracle : Nat → RunOutcome)
    (newUuid : String) (gradeNow serverNow : Nat) (subs : List LbEntry)
    (sub : Submission) (td : TestData) (pe : Nat × List String)
    (hf : findProblem store sub.problem_id = some td)
    (hg : gradeLoop oracle ((td.public_tests ++ td.hidden_tests).enum) = .ok pe) :
    ∃ resp newSubs,
      submit_code store oracle newUuid gradeNow serverNow subs sub = .ok (resp, newSubs) ∧
      resp.grade.error_details = pe.2.take 3 ∧
      resp.leaderboard_entry.error_details = pe.2.take 5 ∧
      newSubs = record resp.leaderboard_entry subs ∧
      (∀ r, grade_submission store oracle newUuid gradeNow
          sub.code sub.problem_id sub.user_id = .ok r →
        r.error_details = pe.2.take 5 ∧ r.submission_entry.error_details = pe.2.take 3) := by
  have hgr : grade_submission store oracle newUuid gradeNow
      sub.code sub.problem_id sub.user_id =
      .ok {
        score := pe.1
        total := (td.public_tests ++ td.hidden_tests).length
        replay_result := replayResult pe.1 (td.public_tests ++ td.hidden_tests).length
        submission_entry := {
          submission_id := newUuid
          user_id := sub.user_id
          problem_id := sub.problem_id
          score := pe.1
          replay_result := replayResult pe.1 (td.public_tests ++ td.hidden_tests).length
          timestamp := gradeNow
          error_details := pe.2.take 3 }
        error_details := pe.2.take 5 } := by
    simp [grade_submission, hf, hg]
  refine ⟨{
      grade := {
        score := pe.1
        total := (td.public_tests ++ td.hidden_tests).length
        replay_result := replayResult pe.1 (td.public_tests ++ td.hidden_tests).length
        error_details := (pe.2.take 5).take 3 }
      leaderboard_entry := {
        submission_id := newUuid
        user_id := sub.user_id
        problem_id := sub.problem_id
        score := pe.1
        replay_result := toString pe.1 ++ "/" ++
          toString (td.public_tests ++ td.hidden_tests).length ++ " tests passed"
        timestamp := serverNow
        error_details := pe.2.take 5 } }, _, ?_, ?_, rfl, rfl, ?_⟩
  · simp [submit_code, hf, hgr]
  · show (pe.2.take 5).take 3 = pe.2.take 3
    simp [List.take_take]
  · intro r hr
    rw [hgr] at hr
    injection hr with hr2
    rw [← hr2]
    exact ⟨rfl, rfl⟩

/-- Witness for the amended C6 at the four-timeout run. -/
theorem claim_C6_amended_witness :
    ∃ resp newSubs,
      submit_code wStore4 wOracleTimeout "s1" 0 0 [] ⟨"u", "q", "c"⟩ = .ok (resp, newSubs) ∧
      resp.grade.error_details = wDiags4.take 3 ∧
      resp.leaderboard_entry.error_details = wDiags4.take 5 ∧
      newSubs = record resp.leaderboard_entry [] ∧
      (∀ r, grade_submission wStore4 wOracleTimeout "s1" 0 "c" "q" "u" = .ok r →
        r.error_details = wDiags4.take 5 ∧ r.submission_entry.error_details = wDiags4.take 3) :=
  claim_C6_diagnostics_amended wStore4 wOracleTimeout "s1" 0 0 [] ⟨"u", "q", "c"⟩ wTd4
    (0, wDiags4) (by decide) (by decide)

/-- C7 counterexample: a run that exits non-zero with stderr "boom\n"
produces the diagnostic "Test 1: Runtime error - boom" — the captured
stderr is stripped of surrounding whitespace first — which differs from
the claimed literal "Test {i+1}: Runtime error - {stderr}" with the raw
stderr substituted. -/
theorem claim_C7_counterexample :
    (grade_submission wStore (fun _ => RunOutcome.finished 1 "" "boom\n") "s0" 0 "c" "p" "u").map
      (fun r => r.error_details) = Except.ok ["Test 1: Runtime error - boom"] ∧
    ("Test 1: Runtime error - boom" : String) ≠ "Test 1: Runtime error - boom\n" := by decide

/-- C7 amended: per-test failures are recovered locally: a non-zero exit
yields a failed test with message "Test {i+1}: Runtime error - {stderr
stripped of leading/trailing whitespace}", a timeout yields "Test {i+1}:
Timeout (exceeded 5 seconds)", in both cases the loop continues with the
remaining tests, and a submission on a resolvable problem whose runs
never hit a temp-file materialization failure always receives a score
and verdict covering all test cases. -/
theorem claim_C7_failure_recovery :
    (∀ i c exitCode stdout stderr, exitCode ≠ 0 →
      stepCase i c (.finished exitCode stdout stderr) = .ok (some (runtimeErrorMsg i stderr))) ∧
    (∀ i c, stepCase i c .timedOut = .ok (some (timeoutMsg i))) ∧
    (∀ (oracle : Nat → RunOutcome) i c rest msg, stepCase i c (oracle i) = .ok (some msg) →
      gradeLoop oracle ((i, c) :: rest) =
        (gradeLoop oracle rest).map (fun pe => (pe.1, msg :: pe.2))) ∧
    (∀ store oracle newUuid now code problem_id user_id td,
      findProblem store problem_id = some td →
      (∀ j m, oracle j ≠ RunOutcome.tempFail m) →
      ∃ r, grade_submission store oracle newUuid now code problem_id user_id = .ok r ∧
        r.total = td.public_tests.length + td.hidden_tests.length ∧
        r.replay_result = replayResult r.score r.total) := by
  refine ⟨?_, ?_, ?_, ?_⟩
  · intro i c exitCode stdout stderr h
    simp [stepCase, h]
  · intro i c
    rfl
  · intro oracle i c rest msg h
    simp [gradeLoop, h]
  · intro store oracle newUuid now code problem_id user_id td hf hno
    obtain ⟨pe, hpe⟩ := gradeLoop_ok_of_no_tempFail oracle
      ((td.public_tests ++ td.hidden_tests).enum) (fun pc _ m => hno pc.1 m)
    refine ⟨{
      score := pe.1
      total := (td.public_tests ++ td.hidden_tests).length
      replay_result := replayResult pe.1 (td.public_tests ++ td.hidden_tests).length
      submission_entry := {
        submission_id := newUuid
        user_id := user_id
        problem_id := problem_id
        score := pe.1
        replay_result := replayResult pe.1 (td.public_tests ++ td.hidden_tests).length
        timestamp := now
        error_details := pe.2.take 3 }
      error_details := pe.2.take 5 }, ?_, ?_, rfl⟩
    · simp [grade_submission, hf, hpe]
    · simp

/-- Witness for the amended C7 at the one-test timeout run. -/
theorem claim_C7_witness :
    ∃ r, grade_submission wStore wOracleTimeout "w" 0 "c" "p" "u" = .ok r ∧
      r.total = wTd1.public_tests.length + wTd1.hidden_tests.length ∧
      r.replay_result = replayResult r.score r.total :=
  claim_C7_failure_recovery.2.2.2 wStore wOracleTimeout "w" 0 "c" "p" "u" wTd1
    (by decide) (fun j m => by simp [wOracleTimeout])

/-- Helper for C8: a temp-file materialization failure on the first test
of a nonempty test list escapes grade_submission as infraFailure. -/
theorem grade_submission_tempFail (store : Store) (oracle : Nat → RunOutcome)
    (newUuid : String) (now : Nat) (code problem_id user_id : String)
    (td : TestData) (m : String)
    (hf : findProblem store problem_id = some td)
    (hne : td.public_tests ++ td.hidden_tests ≠ [])
    (h0 : oracle 0 = RunOutcome.tempFail m) :
    grade_submission store oracle newUuid now code problem_id user_id =
      .error (.infraFailure m) := by
  have hloop : gradeLoop oracle ((td.public_tests ++ td.hidden_tests).enum) = .error m := by
    cases hL : td.public_tests ++ td.hidden_tests with
    | nil => exact absurd hL hne
    | cons c cs =>
      show gradeLoop oracle ((0, c) :: List.enumFrom 1 cs) = .error m
      simp [gradeLoop, stepCase, h0]
  simp [grade_submission, hf, hloop]

/-- C8 counterexample: when the runner cannot spawn the child process
(the inner catch-all handler fires), grading succeeds anyway with the
failure counted as a failed test case — score 0 of 1, verdict "failed",
diagnostic "Test 1: Execution error - spawn failed" — instead of being
surfaced as a distinct grading-failed condition. -/
theorem claim_C8_counterexample :
    (grade_submission wStore (fun _ => RunOutcome.execError "spawn failed")
        "s0" 0 "c" "p" "u").map
      (fun r => (r.score, r.total, r.replay_result, r.error_details)) =
      Except.ok (0, 1, "failed", ["Test 1: Execution error - spawn failed"]) := by decide

/-- C8 amended: only a failure to materialize the temporary execution
unit escapes grading: it surfaces as the distinct infraFailure, which
the HTTP layer maps to a 500 "Grading failed" response, and is not
counted as a failed test case; a failure to spawn the child process,
by contrast, is caught per test and recorded as a failed test case with
an "Execution error" diagnostic, and grading continues. -/
theorem claim_C8_engine_failure_amended :
    (∀ store oracle newUuid now code problem_id user_id td m,
      findProblem store problem_id = some td →
      td.public_tests ++ td.hidden_tests ≠ [] →
      oracle 0 = RunOutcome.tempFail m →
      grade_submission store oracle newUuid now code problem_id user_id =
        .error (.infraFailure m)) ∧
    (∀ store oracle newUuid gradeNow serverNow subs sub td m,
      findProblem store sub.problem_id = some td →
      td.public_tests ++ td.hidden_tests ≠ [] →
      oracle 0 = RunOutcome.tempFail m →
      submit_code store oracle newUuid gradeNow serverNow subs sub =
        .error { status := 500, detail := "Grading failed: " ++ m }) ∧
    (∀ i c m, stepCase i c (RunOutcome.execError m) = .ok (some (execErrorMsg i m))) := by
  refine ⟨grade_submission_tempFail, ?_, ?_⟩
  · intro store oracle newUuid gradeNow serverNow subs sub td m hf hne h0
    have hg := grade_submission_tempFail store oracle newUuid gradeNow
      sub.code sub.problem_id sub.user_id td m hf hne h0
    simp [submit_code, hf, hg, GradeError.message]
  · intro i c m
    rfl

/-- Witness for the amended C8: a temp-file failure on the one-test
problem escapes as infraFailure. -/
theorem claim_C8_witness :
    grade_submission wStore (fun _ => RunOutcome.tempFail "disk full") "w" 0 "c" "p" "u" =
      .error (.infraFailure "disk full") :=
  claim_C8_engine_failure_amended.1 wStore (fun _ => RunOutcome.tempFail "disk full")
    "w" 0 "c" "p" "u" wTd1 "disk full" (by decide) (by decide) rfl

end Replit
